import Mathlib

/-!
Verification of the incremental header-generation pipeline
(`dev/generate_headers.py`): a shallow embedding of its staleness checks,
hash-gated writes, aggregation loop and hex embedding, with theorems
settling the specification claims.

Modelling conventions:
* filesystem modification times are abstracted as natural numbers (only
  their ordering is ever consulted by the code);
* the SHA224 digest function `get_hash` is an abstract parameter
  `gh : String → String` (no claim depends on its internals);
* file payload bytes are natural numbers below 256;
* Python exceptions are modelled with `Except String`.
-/

set_option autoImplicit false

namespace GenerateHeaders

/-! ## The embed-job staleness pre-check

Embedding of the local function `needs_build` defined inside `TO_CPP`
(lines 95-100):

```python
def needs_build(inpath: Path, outpath: Path):
    if not outpath.exists():
        return True
    if not inpath.exists():
        raise ValueError(f"(inpath) cannot be found")
    return os.path.getmtime(inpath) > os.path.getmtime(outpath)
```
-/

namespace TO_CPP

/-- Staleness pre-check of an embed job, from the inner `needs_build` of
`TO_CPP`: destination missing means stale; a missing input (with the
destination present) raises; otherwise compare modification times with a
strict greater-than. -/
def needs_build (inpath : String) (inExists outExists : Bool)
    (inMtime outMtime : Nat) : Except String Bool :=
  if !outExists then
    Except.ok true
  else if !inExists then
    Except.error (inpath ++ " cannot be found")
  else
    Except.ok (decide (inMtime > outMtime))

/-- Hash gate of an embed job, from the condition on lines 127 and 174:

```python
if not os.path.isfile(...) or variable not in hashes or
   (variable in hashes and hashes[variable] != get_hash(hex_string...)):
```

`stored` is `hashes.get(variable)` and `newHash` is the digest of the
encoded payload about to be written. -/
def should_write (outExists : Bool) (stored : Option String)
    (newHash : String) : Bool :=
  !outExists || stored.isNone || (stored.isSome && !(stored == some newHash))

end TO_CPP

/-! ## The hex embedding (lines 114-124 and 161-171)

```python
h = ["0x(:02x)".format(int(b)) for b in json_] + ["0x00"]
chunks = to_chunks(h, 16)
hex_string = ",\n".join([", ".join(chunk) for chunk in chunks])
```
-/

/-- Lowercase hexadecimal digit character for a value below 16 (as produced
by the Python format specifier `02x`). -/
def hexDigit (n : Nat) : Char :=
  if n = 0 then '0'
  else if n = 1 then '1'
  else if n = 2 then '2'
  else if n = 3 then '3'
  else if n = 4 then '4'
  else if n = 5 then '5'
  else if n = 6 then '6'
  else if n = 7 then '7'
  else if n = 8 then '8'
  else if n = 9 then '9'
  else if n = 10 then 'a'
  else if n = 11 then 'b'
  else if n = 12 then 'c'
  else if n = 13 then 'd'
  else if n = 14 then 'e'
  else 'f'

/-- Embedding of the Python expression `"0x(:02x)".format(int(b))` for a
byte value `b < 256`: the two-digit lowercase hex literal with a `0x`
marker in front. -/
def hexLit (b : Nat) : String :=
  String.mk ['0', 'x', hexDigit (b / 16), hexDigit (b % 16)]

/-- Embedding of the inner helper `to_chunks(l, n)` of `TO_CPP`
(lines 84-87): successive slices of size `n` (a size below 1 is bumped
to 1). -/
def to_chunks {α : Type} (n : Nat) : List α → List (List α)
  | [] => []
  | x :: xs =>
    (x :: xs).take (max n 1) :: to_chunks n ((x :: xs).drop (max n 1))
termination_by l => l.length
decreasing_by
  simp only [List.length_drop, List.length_cons]
  have h1 : 1 ≤ max n 1 := Nat.le_max_right n 1
  omega

/-- Embedding of the Python `sep.join(parts)` string method. -/
def pyjoin (sep : String) : List String → String
  | [] => ""
  | [x] => x
  | x :: y :: xs => x ++ sep ++ pyjoin sep (y :: xs)

/-- Hex encoding of a byte payload, from lines 114-124 (identical code at
161-171): every byte becomes a two-digit lowercase hex literal, one
terminating zero-byte literal is appended, the literals are grouped 16 to
a line, joined with a comma-space inside a line and a comma-newline
between lines. -/
def encode_hex (payload : List Nat) : String :=
  pyjoin ",\n" ((to_chunks 16 (payload.map hexLit ++ ["0x00"])).map (pyjoin ", "))

/-- Separator characters of the hex encoding: comma, space, newline. -/
def isSep (c : Char) : Bool :=
  c = ',' || c = ' ' || c = '\n'

/-- Value of a lowercase hexadecimal digit character. -/
def hexVal (c : Char) : Nat :=
  if c = '0' then 0
  else if c = '1' then 1
  else if c = '2' then 2
  else if c = '3' then 3
  else if c = '4' then 4
  else if c = '5' then 5
  else if c = '6' then 6
  else if c = '7' then 7
  else if c = '8' then 8
  else if c = '9' then 9
  else if c = 'a' then 10
  else if c = 'b' then 11
  else if c = 'c' then 12
  else if c = 'd' then 13
  else if c = 'e' then 14
  else 15

/-- Value of one four-character hex literal `0xHH`. -/
def parseLit : List Char → Nat
  | [_, _, h1, h2] => 16 * hexVal h1 + hexVal h2
  | _ => 0

/-- Decoder reversing `encode_hex`: strip the separator characters, cut
the remaining text into four-character literals, parse each, and drop the
terminating zero byte. -/
def decode_hex (s : String) : List Nat :=
  ((to_chunks 4 (s.data.filter (fun c => !isSep c))).map parseLit).dropLast

/-- Whole embed job for one configured entry, composing the staleness
pre-check (lines 102-107 and 139-144) with the hash-gated write (lines
127-137 and 174-193).  `gh` abstracts `get_hash`; the result reports
whether the destination file is written, or carries the raised error. -/
def embed_job (gh : String → String) (payload : List Nat) (inpath : String)
    (inExists outExists : Bool) (inMtime outMtime : Nat)
    (stored : Option String) : Except String Bool :=
  match TO_CPP.needs_build inpath inExists outExists inMtime outMtime with
  | Except.error e => Except.error e
  | Except.ok false => Except.ok false
  | Except.ok true =>
      Except.ok (TO_CPP.should_write outExists stored (gh (encode_hex payload)))

/-! ## The aggregation staleness evaluator (`DependencyManager`, lines 321-347)

In the source the `sources` argument is annotated `list[Path]`, but both
call sites (lines 351-353 and 392-394) pass the generator returned by
`Path.glob`.  A Python list can be iterated any number of times, while a
generator is consumed by iteration: the `for` loop of `needs_build` and
the later `sorted(self.sources)` each take elements from the same
iterator.  `PyIterable` models both behaviours: `items` is what the
iterator will still yield, and `reiterable` tells the two apart. -/

/-- State of a Python iterable: the elements it will still yield, and
whether iterating it consumes it (`reiterable = false` for a generator,
`true` for a list). -/
structure PyIterable where
  items : List String
  reiterable : Bool
deriving DecidableEq, Repr

/-- Filesystem state, as seen by `DependencyManager.needs_build`: presence
of destination and cache file, the destination modification time, the
modification time of each source path, and the parse of the pickle cache
(`none` models a cache file that raises on unpickling). -/
structure DepState where
  destExists : Bool
  cacheExists : Bool
  destMtime : Nat
  mtime : String → Nat
  cacheParse : Option (List String)

/-- Embedding of the builtin `sorted` on the source path lists (insertion
sort in ascending string order; stability and algorithm are irrelevant to
the claims, only that both writer and reader apply the same function). -/
def pyInsert (s : String) : List String → List String
  | [] => [s]
  | t :: ts => if s ≤ t then s :: t :: ts else t :: pyInsert s ts

/-- Ascending sort, the model of `sorted(...)`. -/
def pysorted (l : List String) : List String :=
  l.foldr pyInsert []

/-- The `for source in self.sources` loop of lines 335-337: yields the
first source whose modification time is at least the destination time
(the early return), together with the elements the iterator has not yet
yielded when the loop stops. -/
def mtimeLoop (mt : String → Nat) (destMtime : Nat) :
    List String → Option String × List String
  | [] => (none, [])
  | s :: rest =>
    if mt s ≥ destMtime then (some s, rest) else mtimeLoop mt destMtime rest

namespace DependencyManager

/-- Embedding of `DependencyManager.needs_build` (lines 327-343), faithful
to the iterator semantics of the `sources` argument: the mtime loop
consumes a generator, so the later `sorted(self.sources)` sees only what
the loop did not consume (nothing, when the loop ran to completion).  The
result carries the `(bool, reason)` pair and the iterator state after the
call; a cache file that fails to unpickle raises. -/
def needs_build (st : DepState) (sources : PyIterable) :
    Except String ((Bool × String) × PyIterable) :=
  if !st.destExists then
    Except.ok ((true, "destination does not exist"), sources)
  else if !st.cacheExists then
    Except.ok ((true, "cache file does not exist"), sources)
  else
    match mtimeLoop st.mtime st.destMtime sources.items with
    | (some s, rest) =>
      Except.ok ((true, "source file " ++ s ++ " is newer than destination"),
        if sources.reiterable then sources else ⟨rest, false⟩)
    | (none, _) =>
      let current := if sources.reiterable then sources.items else []
      match st.cacheParse with
      | none => Except.error "unpickling stack underflow"
      | some previous =>
        if pysorted current ≠ previous then
          Except.ok ((true, "source list has changed"), ⟨current, sources.reiterable⟩)
        else
          Except.ok ((false, ""), ⟨current, sources.reiterable⟩)

/-- Embedding of `DependencyManager.write_cache` (lines 345-347): records
`sorted(self.sources)` — for a generator, the sort of whatever the
iterator still yields — and returns the recorded list together with the
iterator state afterwards. -/
def write_cache (sources : PyIterable) : List String × PyIterable :=
  (pysorted sources.items, ⟨if sources.reiterable then sources.items else [], sources.reiterable⟩)

end DependencyManager

/-- Truthiness of the `(bool, reason)` pair in `if depincomp.needs_build():`
(line 395): a Python tuple of two elements is nonempty, hence truthy,
whatever it contains. -/
def py_truthy_pair (_p : Bool × String) : Bool :=
  true

/-- Gate used for the fluids job (lines 355-356), which destructures the
pair and tests the boolean. -/
def fluids_gate (p : Bool × String) : Bool :=
  p.1

/-- Gate used for the incompressibles job (line 395), which tests the pair
itself. -/
def incomp_gate (p : Bool × String) : Bool :=
  py_truthy_pair p

/-! ## The aggregation loop (lines 359-373 and 397-412) -/

/-- Embedding of the fragment-reading loop of `combine_json`: fragments
are given as (file name, parse result) pairs in enumeration order, with
`none` modelling a file whose `json.load` raises `ValueError`; the loop
re-raises with a message naming the file, and on success accumulates the
parsed documents in order. -/
def combine_loop {α : Type} : List (String × Option α) → Except String (List α)
  | [] => Except.ok []
  | (file, parsed) :: rest =>
    match parsed with
    | none => Except.error ("unable to decode file " ++ file)
    | some fluid =>
      match combine_loop rest with
      | Except.error e => Except.error e
      | Except.ok master => Except.ok (fluid :: master)

/-! ## Version file and hash-store flush (lines 211-255 and 436-440) -/

/-- Embedding of `version_to_file` (lines 211-255), tracking which files
it writes: the `cpversion.h` write is gated by the stored digest of the
version string, while the hidden `.version` file is written
unconditionally at the end, on every run.  `gh` abstracts `get_hash`;
`stored` is `hashes.get("version")`.  Returns the new stored digest and
the list of files written. -/
def version_to_file (gh : String → String) (version : String)
    (stored : Option String) : Option String × List String :=
  if stored = none ∨ (stored ≠ none ∧ stored ≠ some (gh version)) then
    (some (gh version), ["include/cpversion.h", ".version"])
  else
    (stored, [".version"])

/-- Embedding of the hash-store flush at the end of `generate`
(lines 436-440): `if hashes:` writes the store file whenever the mapping
is nonempty.  Returns the files written. -/
def flush_hashes (hashes : List (String × String)) : List String :=
  if hashes = [] then [] else ["dev/hashes.json"]

/-- Embedding of the module-level HashStore load (lines 33-43): a missing
file yields an empty store, and a present file whose JSON parse raises
`JSONDecodeError` (`parse = none`) is logged and replaced by an empty
store. -/
def load_hashes (fileExists : Bool) (parse : Option (List (String × String))) :
    List (String × String) :=
  if fileExists then
    match parse with
    | some h => h
    | none => []
  else
    []

/-! ## Helper lemmas about the hex encoding -/

theorem to_chunks_nil {α : Type} (n : Nat) : to_chunks n ([] : List α) = [] := by
  rw [to_chunks]

theorem to_chunks_cons {α : Type} (n : Nat) (x : α) (xs : List α) :
    to_chunks n (x :: xs) =
      (x :: xs).take (max n 1) :: to_chunks n ((x :: xs).drop (max n 1)) := by
  rw [to_chunks]

theorem to_chunks_ne_nil {α : Type} (n : Nat) (l : List α) (h : l ≠ []) :
    to_chunks n l = l.take (max n 1) :: to_chunks n (l.drop (max n 1)) := by
  cases l with
  | nil => exact absurd rfl h
  | cons x xs => exact to_chunks_cons n x xs

theorem flatten_to_chunks {α : Type} (n : Nat) (l : List α) :
    (to_chunks n l).flatten = l := by
  induction l using to_chunks.induct n with
  | case1 => simp [to_chunks_nil]
  | case2 x xs ih => rw [to_chunks_cons]; simp [ih]

theorem filter_data_pyjoin (P : Char → Bool) (sep : String)
    (hsep : sep.data.filter P = []) (l : List String) :
    (pyjoin sep l).data.filter P = (l.map (fun s => s.data.filter P)).flatten := by
  induction l with
  | nil => simp [pyjoin]
  | cons x xs ih =>
    cases xs with
    | nil => simp [pyjoin]
    | cons y ys =>
      show ((x ++ sep ++ pyjoin sep (y :: ys)).data.filter P) = _
      rw [String.data_append, String.data_append, List.filter_append,
        List.filter_append, hsep, ih]
      simp

theorem hexVal_hexDigit {k : Nat} (h : k < 16) : hexVal (hexDigit k) = k := by
  interval_cases k <;> rfl

theorem isSep_hexDigit {k : Nat} (h : k < 16) : isSep (hexDigit k) = false := by
  interval_cases k <;> rfl

theorem data_hexLit (b : Nat) :
    (hexLit b).data = ['0', 'x', hexDigit (b / 16), hexDigit (b % 16)] := rfl

theorem filter_data_hexLit {b : Nat} (h : b < 256) :
    (hexLit b).data.filter (fun c => !isSep c) = (hexLit b).data := by
  have h1 : b / 16 < 16 := by omega
  have h2 : b % 16 < 16 := by omega
  rw [data_hexLit]
  have e1 : isSep '0' = false := rfl
  have e2 : isSep 'x' = false := rfl
  simp [List.filter, e1, e2, isSep_hexDigit h1, isSep_hexDigit h2]

theorem length_data_hexLit (b : Nat) : (hexLit b).data.length = 4 := rfl

theorem parseLit_hexLit {b : Nat} (h : b < 256) : parseLit (hexLit b).data = b := by
  have h1 : b / 16 < 16 := by omega
  have h2 : b % 16 < 16 := by omega
  rw [data_hexLit]
  show 16 * hexVal (hexDigit (b / 16)) + hexVal (hexDigit (b % 16)) = b
  rw [hexVal_hexDigit h1, hexVal_hexDigit h2]
  omega

theorem flatten_map_flatten_map {α : Type} (g : String → List α)
    (cs : List (List String)) :
    (cs.map (fun c => (c.map g).flatten)).flatten = (cs.flatten.map g).flatten := by
  induction cs with
  | nil => simp
  | cons c cs ih => simp [ih]

theorem to_chunks_four_flatten :
    ∀ (ls : List (List Char)), (∀ x ∈ ls, x.length = 4) →
      to_chunks 4 ls.flatten = ls := by
  intro ls
  induction ls with
  | nil => intro _; simp [to_chunks_nil]
  | cons x rest ih =>
    intro h
    have hx : x.length = 4 := h x (List.mem_cons_self x rest)
    have hne : x ++ rest.flatten ≠ [] := by
      intro hcon
      have : x = [] := (List.append_eq_nil.mp hcon).1
      rw [this] at hx
      simp at hx
    rw [List.flatten_cons, to_chunks_ne_nil 4 _ hne]
    have hmax : max 4 1 = 4 := rfl
    rw [hmax]
    have htake : (x ++ rest.flatten).take 4 = x := by
      rw [← hx]; exact List.take_left x rest.flatten
    have hdrop : (x ++ rest.flatten).drop 4 = rest.flatten := by
      rw [← hx]; exact List.drop_left x rest.flatten
    rw [htake, hdrop, ih (fun y hy => h y (List.mem_cons_of_mem x hy))]

/-- C9: Round-trip of the embed encoding.  Every byte of the payload is
encoded as a two-digit lowercase hex literal with a 0x marker, one
terminating zero-byte literal is appended, the literals are grouped 16
per line joined by comma-space within a line and comma-newline between
lines; reversing the encoding (parsing the hex literals and dropping the
terminating zero byte) reproduces the original payload exactly. -/
theorem C9_round_trip (payload : List Nat) (h : ∀ b ∈ payload, b < 256) :
    decode_hex (encode_hex payload) = payload := by
  unfold decode_hex encode_hex
  rw [filter_data_pyjoin _ ",\n" (by decide)]
  rw [List.map_map]
  have hinner :
      ((to_chunks 16 (payload.map hexLit ++ ["0x00"])).map
        ((fun s => s.data.filter (fun c => !isSep c)) ∘ pyjoin ", ")) =
      ((to_chunks 16 (payload.map hexLit ++ ["0x00"])).map
        (fun c => (c.map (fun s => s.data.filter (fun c => !isSep c))).flatten)) := by
    apply List.map_congr_left
    intro c _
    exact filter_data_pyjoin _ ", " (by decide) c
  rw [hinner, flatten_map_flatten_map, flatten_to_chunks]
  have htoks :
      ((payload.map hexLit ++ ["0x00"]).map (fun s => s.data.filter (fun c => !isSep c))) =
      ((payload.map hexLit ++ ["0x00"]).map String.data) := by
    apply List.map_congr_left
    intro s hs
    rcases List.mem_append.mp hs with hmem | hmem
    · rcases List.mem_map.mp hmem with ⟨b, hb, rfl⟩
      exact filter_data_hexLit (h b hb)
    · simp only [List.mem_singleton] at hmem
      subst hmem
      decide
  rw [htoks]
  rw [to_chunks_four_flatten _ (by
    intro x hx
    rcases List.mem_map.mp hx with ⟨s, hs, rfl⟩
    rcases List.mem_append.mp hs with hmem | hmem
    · rcases List.mem_map.mp hmem with ⟨b, hb, rfl⟩
      exact length_data_hexLit b
    · simp only [List.mem_singleton] at hmem
      subst hmem
      rfl)]
  rw [List.map_map, List.map_append, List.map_map]
  have hlast : ((["0x00"] : List String).map (parseLit ∘ String.data)) = [0] := by decide
  have hmain :
      (payload.map ((parseLit ∘ String.data) ∘ hexLit)) = payload := by
    apply List.map_congr_left ?_ |>.trans (List.map_id payload)
    intro b hb
    exact parseLit_hexLit (h b hb)
  rw [hlast, hmain, List.dropLast_concat]

/-- C9 witness: a concrete payload spanning two encoded lines round-trips. -/
theorem C9_round_trip_witness :
    (∀ b ∈ [0, 1, 15, 16, 127, 128, 200, 255, 10, 32, 44, 97, 98, 99, 100,
      101, 102], b < 256) ∧
    decode_hex (encode_hex [0, 1, 15, 16, 127, 128, 200, 255, 10, 32, 44, 97,
      98, 99, 100, 101, 102]) =
      [0, 1, 15, 16, 127, 128, 200, 255, 10, 32, 44, 97, 98, 99, 100, 101, 102] :=
  ⟨by decide, C9_round_trip _ (by decide)⟩

/-! ## Helper lemmas about the aggregation staleness loop -/

theorem mtimeLoop_fst (mt : String → Nat) (d : Nat) (l : List String) :
    (mtimeLoop mt d l).1 = l.find? (fun s => decide (mt s ≥ d)) := by
  induction l with
  | nil => rfl
  | cons s rest ih =>
    by_cases hs : mt s ≥ d
    · simp [mtimeLoop, List.find?, hs]
    · simp [mtimeLoop, List.find?, hs, ih]

theorem mtimeLoop_all_older (mt : String → Nat) (d : Nat) (l : List String)
    (h : ∀ s ∈ l, mt s < d) : mtimeLoop mt d l = (none, []) := by
  induction l with
  | nil => rfl
  | cons s rest ih =>
    have hs : ¬mt s ≥ d := by
      have := h s (List.mem_cons_self s rest)
      omega
    simp only [mtimeLoop, if_neg hs]
    exact ih (fun t ht => h t (List.mem_cons_of_mem s ht))

/-! ## Theorems for the embed-job pre-check claims -/

/-- C6 counterexample: with destination and input both present and their
modification times equal (5 and 5), the embed pre-check reports fresh,
while the claim (same rule as aggregation step 3, with greater-or-equal)
demands stale. -/
theorem C6_counterexample :
    TO_CPP.needs_build "dev/all_fluids.json.z" true true 5 5 = Except.ok false ∧
    5 ≥ 5 := ⟨rfl, Nat.le_refl 5⟩

/-- C6 (amended): the embed pre-check reports stale when the destination
does not exist, and otherwise exactly when the input modification time is
strictly greater than the destination modification time; equal timestamps
are treated as fresh, unlike the aggregation evaluator. -/
theorem C6_embed_precheck (inpath : String) (inExists : Bool) (inM outM : Nat) :
    TO_CPP.needs_build inpath inExists false inM outM = Except.ok true ∧
    TO_CPP.needs_build inpath true true inM outM =
      Except.ok (decide (inM > outM)) := by
  constructor <;> simp [TO_CPP.needs_build]

/-- C10: in the embed pre-check, a missing input raises only when the
output exists: when the output file does not exist the check returns
stale immediately, whatever the input existence flag says, and the
missing-input error is raised only in the output-present case. -/
theorem C10_missing_input_only_when_output_exists (inpath : String) :
    (∀ (inExists : Bool) (inM outM : Nat),
      TO_CPP.needs_build inpath inExists false inM outM = Except.ok true) ∧
    (∀ inM outM : Nat,
      TO_CPP.needs_build inpath false true inM outM =
        Except.error (inpath ++ " cannot be found")) := by
  constructor <;> intro _ _ <;> intros <;> simp [TO_CPP.needs_build]

/-- C2 counterexample: with the destination file missing, a stored digest
present and equal to the new digest, the embed job still writes — the
claim says a write happens only when the digest differs or no entry
exists, and here neither holds. -/
theorem C2_counterexample :
    embed_job (fun _ => "h") [] "dev/all_fluids.json" true false 7 5 (some "h") =
      Except.ok true ∧
    ¬(((some "h" : Option String) = none) ∨ ("h" : String) ≠ "h") := by
  constructor
  · rfl
  · simp

/-- C2 (amended): assuming the input file exists, the embed job writes its
destination exactly when the timestamp pre-check says rebuild (destination
missing, or input strictly newer) and additionally the destination file is
missing, or no digest entry exists, or the stored digest differs from the
digest of the encoded payload; in particular, when the destination exists
and the stored digest equals the new digest, the write is skipped even
when the timestamp pre-check said rebuild. -/
theorem C2_content_gate (gh : String → String) (payload : List Nat)
    (inpath : String) (outExists : Bool) (inM outM : Nat)
    (stored : Option String) :
    (embed_job gh payload inpath true outExists inM outM stored = Except.ok true ↔
      ((outExists = false ∨ inM > outM) ∧
        (outExists = false ∨ stored = none ∨
          stored ≠ some (gh (encode_hex payload))))) ∧
    embed_job gh payload inpath true true inM outM
      (some (gh (encode_hex payload))) = Except.ok false := by
  constructor
  · cases outExists with
    | false =>
      simp [embed_job, TO_CPP.needs_build, TO_CPP.should_write]
    | true =>
      by_cases hgt : inM > outM
      · cases stored with
        | none =>
          simp [embed_job, TO_CPP.needs_build, TO_CPP.should_write, hgt]
        | some d =>
          by_cases hd : d = gh (encode_hex payload)
          · subst hd
            simp [embed_job, TO_CPP.needs_build, TO_CPP.should_write, hgt]
          · simp [embed_job, TO_CPP.needs_build, TO_CPP.should_write, hgt, hd]
      · simp [embed_job, TO_CPP.needs_build, TO_CPP.should_write, hgt]
  · by_cases hgt : inM > outM
    · simp [embed_job, TO_CPP.needs_build, TO_CPP.should_write, hgt]
    · simp [embed_job, TO_CPP.needs_build, TO_CPP.should_write, hgt]

/-! ## Theorems for the aggregation claims -/

/-- C5: failing input for the incompressibles aggregation gate.  With
destination and cache file present, no source at all (so certainly none
newer) and a recorded source list matching, the staleness evaluator
reports fresh — the pair (false, empty reason) — yet the gate of the
incompressibles job on line 395 tests the pair itself, which is a
two-element tuple and hence truthy in Python, so the aggregation body
runs anyway; the fluids job destructures the pair and correctly tests the
boolean. -/
theorem C5_incomp_gate_truthy :
    DependencyManager.needs_build ⟨true, true, 10, fun _ => 1, some []⟩ ⟨[], false⟩ =
      Except.ok ((false, ""), ⟨[], false⟩) ∧
    incomp_gate (false, "") = true ∧
    fluids_gate (false, "") = false :=
  ⟨rfl, rfl, rfl⟩

/-- C7 counterexample: with destination and cache file both present, no
source newer, and a cache file whose unpickling fails, the aggregation
staleness evaluator raises instead of treating the cache as absent — the
claimed non-fatal degradation holds for the HashStore only. -/
theorem C7_counterexample :
    DependencyManager.needs_build ⟨true, true, 10, fun _ => 0, none⟩ ⟨[], true⟩ =
      Except.error "unpickling stack underflow" := rfl

/-- C7 (amended): corruption of the on-disk HashStore file is non-fatal —
a present but unparsable file degrades to an empty store — but a present
and unpicklable DependencyManifest cache file raises an unhandled error
inside needs_build (whenever evaluation reaches the manifest read, i.e.
destination and cache present and no source newer), aborting the run. -/
theorem C7_hashstore_soft_manifest_fatal :
    (∀ e : Bool, load_hashes e none = []) ∧
    (∀ (st : DepState) (sources : PyIterable),
      st.destExists = true → st.cacheExists = true → st.cacheParse = none →
      (∀ s ∈ sources.items, st.mtime s < st.destMtime) →
      DependencyManager.needs_build st sources =
        Except.error "unpickling stack underflow") := by
  constructor
  · intro e
    cases e <;> rfl
  · intro st sources hdest hcache hparse holder
    unfold DependencyManager.needs_build
    rw [hdest, hcache, mtimeLoop_all_older st.mtime st.destMtime sources.items holder,
      hparse]
    rfl

/-- C7 witness: the amended statement evaluated at a concrete corrupt
store and a concrete manifest state. -/
theorem C7_witness :
    load_hashes true none = [] ∧
    DependencyManager.needs_build ⟨true, true, 10, fun _ => 0, none⟩
        ⟨["s.json"], false⟩ =
      Except.error "unpickling stack underflow" :=
  ⟨C7_hashstore_soft_manifest_fatal.1 true,
    C7_hashstore_soft_manifest_fatal.2 ⟨true, true, 10, fun _ => 0, none⟩
      ⟨["s.json"], false⟩ rfl rfl rfl (fun s _ => (by decide : (0:Nat) < 10))⟩

/-- C4: failing input for the removed-fragment detection.  The claim says
a removed fragment (remaining sources older than the destination) is
detected as stale because the sorted source set recomputed fresh from the
glob differs from the recorded one.  The sources are passed as a glob
generator, which the modification-time loop exhausts, so the comparison
actually uses the empty leftover of the iterator instead of the fresh
glob result.  A run on an unchanged tree records the empty list in the
cache (the same exhaustion bug at write_cache time); after that, removing
a fragment while the current glob still yields one older file is reported
fresh, though the fresh glob result (one file, sorted) differs from the
recorded empty list. -/
theorem C4_removed_fragment_missed :
    DependencyManager.needs_build ⟨true, true, 10, fun _ => 5, some []⟩
        ⟨["a.json"], false⟩ =
      Except.ok ((false, ""), ⟨[], false⟩) ∧
    pysorted ["a.json"] ≠ [] ∧
    (DependencyManager.write_cache ⟨[], false⟩).1 = [] :=
  ⟨rfl, by decide, rfl⟩

/-- C8: a fragment that fails to parse is fatal for the whole aggregation
job: the loop raises an error naming a fragment file whose parse failed,
and no aggregated collection is produced. -/
theorem C8_malformed_fragment_fatal {α : Type}
    (frags : List (String × Option α)) (h : ∃ f ∈ frags, f.2 = none) :
    ∃ name, (name, (none : Option α)) ∈ frags ∧
      combine_loop frags = Except.error ("unable to decode file " ++ name) := by
  induction frags with
  | nil =>
    rcases h with ⟨f, hf, _⟩
    cases hf
  | cons p rest ih =>
    obtain ⟨file, parsed⟩ := p
    cases parsed with
    | none => exact ⟨file, List.mem_cons_self _ _, rfl⟩
    | some v =>
      have h' : ∃ f ∈ rest, f.2 = none := by
        rcases h with ⟨f, hf, hf2⟩
        rcases List.mem_cons.mp hf with hf | hmem
        · subst hf
          simp at hf2
        · exact ⟨f, hmem, hf2⟩
      rcases ih h' with ⟨name, hmem, heq⟩
      exact ⟨name, List.mem_cons_of_mem _ hmem, by simp [combine_loop, heq]⟩

/-- C8 witness: a two-fragment job whose second fragment fails to parse
raises an error naming a failing fragment. -/
theorem C8_witness :
    ∃ name, (name, (none : Option Nat)) ∈
        [("good.json", some 1), ("bad.json", (none : Option Nat))] ∧
      combine_loop [("good.json", some 1), ("bad.json", (none : Option Nat))] =
        Except.error ("unable to decode file " ++ name) :=
  C8_malformed_fragment_fatal _ ⟨("bad.json", none), by simp, rfl⟩

theorem ne_of_data_getElem? {a b : String} {i : Nat}
    (h : a.data[i]? ≠ b.data[i]?) : a ≠ b := by
  intro he
  exact h (by rw [he])

theorem newer_reason_getElem? (s t : String) :
    ("source file " ++ s ++ t).data[7]? = some 'f' := by
  rw [String.data_append, String.data_append, List.append_assoc]
  rw [List.getElem?_append_left (by decide : 7 < ("source file ").data.length)]
  rfl

/-- C3: the aggregation staleness evaluator, applied to a list of source
paths (the type its signature declares), decides in short-circuit order:
missing destination, then missing cache file, then some source with
modification time at least the destination time (greater-or-equal, not
strictly greater), then recorded sorted source set different from the
current sorted source set, and otherwise fresh — with a distinct reason
string for each stale case. -/
theorem C3_decision_order (st : DepState) (items prev : List String)
    (hparse : st.cacheParse = some prev) :
    (DependencyManager.needs_build st ⟨items, true⟩ =
      Except.ok
        ((if st.destExists = false then (true, "destination does not exist")
          else if st.cacheExists = false then (true, "cache file does not exist")
          else
            match items.find? (fun s => decide (st.mtime s ≥ st.destMtime)) with
            | some s => (true, "source file " ++ s ++ " is newer than destination")
            | none =>
              if pysorted items ≠ prev then (true, "source list has changed")
              else (false, "")),
          ⟨items, true⟩)) ∧
    (List.Pairwise (· ≠ ·)
      ["destination does not exist", "cache file does not exist",
        "source list has changed", ""]) ∧
    (∀ s : String,
      ("source file " ++ s ++ " is newer than destination") ∉
        ["destination does not exist", "cache file does not exist",
          "source list has changed", ""]) := by
  refine ⟨?_, by decide, ?_⟩
  · cases hd : st.destExists with
    | false => simp [DependencyManager.needs_build, hd]
    | true =>
      cases hc : st.cacheExists with
      | false => simp [DependencyManager.needs_build, hd, hc]
      | true =>
        have hfst := mtimeLoop_fst st.mtime st.destMtime items
        rcases hml : mtimeLoop st.mtime st.destMtime items with ⟨res, rest⟩
        rw [hml] at hfst
        simp only at hfst
        cases res with
        | some s =>
          simp [DependencyManager.needs_build, hd, hc, hml, ← hfst]
        | none =>
          by_cases hsort : pysorted items ≠ prev
          · simp [DependencyManager.needs_build, hd, hc, hml, hparse, ← hfst, hsort]
          · simp [DependencyManager.needs_build, hd, hc, hml, hparse, ← hfst, hsort]
  · intro s
    have h7 := newer_reason_getElem? s " is newer than destination"
    have hne : ∀ r : String, r.data[7]? ≠ some 'f' →
        ("source file " ++ s ++ " is newer than destination") ≠ r := by
      intro r hr
      exact ne_of_data_getElem? (by rw [h7]; exact Ne.symm hr)
    simp only [List.mem_cons, List.not_mem_nil, or_false, not_or]
    exact ⟨hne _ (by decide), hne _ (by decide), hne _ (by decide),
      hne _ (by decide)⟩

/-- C3 witness: the evaluator at a concrete state whose only staleness
cause is a changed source list. -/
theorem C3_witness :
    DependencyManager.needs_build ⟨true, true, 10, fun _ => 3, some ["b.json"]⟩
        ⟨["a.json"], true⟩ =
      Except.ok ((true, "source list has changed"), ⟨["a.json"], true⟩) := by
  have h := (C3_decision_order ⟨true, true, 10, fun _ => 3, some ["b.json"]⟩
    ["a.json"] ["b.json"] rfl).1
  rw [h]
  rfl

/-! ## Theorems for the pipeline idempotence claim -/

/-- C1 counterexample: immediately after a successful run — the stored
digest of the version string matches, so the gated header write is
skipped — running the version step again still writes the hidden version
file, so the second run does not perform zero file writes. -/
theorem C1_counterexample :
    (version_to_file (fun _ => "h") "6.4.1" (some "h")).2 = [".version"] ∧
    (version_to_file (fun _ => "h") "6.4.1" (some "h")).2 ≠ [] := by
  constructor
  · rfl
  · intro hcon
    simp [version_to_file] at hcon

/-- C1 (amended): a second run immediately after a successful run is not
write-free: the version step writes the hidden version file
unconditionally on every run, and the final flush rewrites the HashStore
file whenever the store mapping is nonempty. -/
theorem C1_second_run_writes :
    (∀ (gh : String → String) (version : String) (stored : Option String),
      ".version" ∈ (version_to_file gh version stored).2) ∧
    (∀ hashes : List (String × String),
      hashes ≠ [] → flush_hashes hashes = ["dev/hashes.json"]) := by
  constructor
  · intro gh version stored
    unfold version_to_file
    split <;> simp
  · intro hashes hne
    simp [flush_hashes, hne]

/-- C1 witness: the amended statement at a concrete post-run state. -/
theorem C1_witness :
    ".version" ∈ (version_to_file (fun _ => "h") "6.4.1" (some "h")).2 ∧
    flush_hashes [("version", "h")] = ["dev/hashes.json"] :=
  ⟨C1_second_run_writes.1 (fun _ => "h") "6.4.1" (some "h"),
    C1_second_run_writes.2 [("version", "h")] (by decide)⟩

end GenerateHeaders
